import Mathlib

/-!
Shallow embedding of `genome_designer/pipeline/variant_calling.py`.

The Python module orchestrates variant calling: it validates sample
alignments, runs four external caller adapters (freebayes, pindel, delly,
lumpy), translates lumpy's breakend report to VCF, and post-processes the
pindel/delly VCFs.  External collaborators (Django ORM, subprocess, the
filesystem) are modelled by explicit data: file contents become values,
subprocess outcomes become boolean parameters, raised exceptions become
`Except` errors, and the Django dataset registry becomes a list.
-/

deriving instance DecidableEq for Except

/- ## Python string primitives

Python-faithful helpers operating on the character sequence of a string:
`s[n:]`, `s[:n]`-style slicing, `str.split(sep)` for a non-empty separator,
`sep.join`, `needle in hay`, `str.replace`, and `int(s)`.
-/

/-- Python `s[n:]` (slicing by characters). -/
def pyDrop (n : Nat) (s : String) : String := String.mk (s.data.drop n)

/-- Python `s[:n]` (slicing by characters). -/
def pyTake (n : Nat) (s : String) : String := String.mk (s.data.take n)

/-- If `l` starts with the pattern, return the remainder after the pattern. -/
def dropPre : List Char → List Char → Option (List Char)
  | [], rest => some rest
  | _ :: _, [] => none
  | p :: ps, c :: cs => if c = p then dropPre ps cs else none

/-- Fuel-indexed worker for splitting a character list on every
non-overlapping occurrence of `pat` (leftmost-first), Python
`str.split(sep)` semantics for a non-empty separator. -/
def splitCharsAux (pat : List Char) : Nat → List Char → List (List Char)
  | _, [] => [[]]
  | 0, l => [l]
  | fuel+1, c :: cs =>
    match dropPre pat (c :: cs) with
    | some rest => [] :: splitCharsAux pat fuel rest
    | none =>
      match splitCharsAux pat fuel cs with
      | [] => [[c]]
      | g :: gs => (c :: g) :: gs

/-- Python `s.split(sep)` for non-empty `sep` (all separators used in the
source — `";"`, `","`, `":"`, `"Number=1"` — are non-empty). -/
def pySplit (sep s : String) : List String :=
  (splitCharsAux sep.data s.data.length s.data).map (fun cs => String.mk cs)

/-- Python `sep.join(parts)`. -/
def joinWith (sep : String) : List String → String
  | [] => ""
  | [x] => x
  | x :: y :: xs => x ++ sep ++ joinWith sep (y :: xs)

/-- Python `needle in hay` (contiguous-substring test). -/
def pyContains (hay needle : String) : Bool := (pySplit needle hay).length != 1

/-- Python `hay.replace(pat, rep)` (replace all non-overlapping
occurrences, leftmost first). -/
def strReplace (hay pat rep : String) : String := joinWith rep (pySplit pat hay)

/-- Digits-only numeral parse; `none` on an empty or non-digit sequence. -/
def pyDigits? : List Char → Option Nat
  | [] => none
  | cs =>
    if cs.all Char.isDigit then
      some (cs.foldl (fun a c => a * 10 + (c.toNat - 48)) 0)
    else none

/-- Python `int(s)`: an optional sign followed by digits; `none` models
the `ValueError` raised on any other shape. -/
def pyInt? (s : String) : Option Int :=
  match s.data with
  | '-' :: cs => (pyDigits? cs).map (fun n => -(n : Int))
  | '+' :: cs => (pyDigits? cs).map (fun n => (n : Int))
  | cs => (pyDigits? cs).map (fun n => (n : Int))

/- ## Lumpy breakend translation (`run_lumpy`, lines 306-535)

`run_lumpy` iterates `enumerate(sample_alignments)` building
`sample_id_dict` (lumpy integer id -> sample uid), `sample_uid_order`
(uids in iteration order) and leaving the Python loop variable
`sample_uid` bound to the last sample's uid.  `lumpy_output_line_to_vcf`
then translates each lumpy report line, using those two tables, into one
VCF data line.
-/

/-- Exceptions that `lumpy_output_line_to_vcf` can raise: `ValueError`
(tuple unpacking of a split, or `int()` on a malformed numeral) and
`KeyError` (reading a dict key that was never set). -/
inductive PyErr
  | valueError
  | keyError
deriving DecidableEq, Repr

/-- The fields of one lumpy report line used by the translator, as bound
by `dict(zip(fieldnames, line.split()))`; the raw `svtype`,
`sample_ids` and `breakpoint_max` fields are kept unparsed, exactly as
the Python dict holds them. -/
structure LumpyFields where
  chr_1 : String
  chr_2 : String
  evidence_score : String
  strand_1 : String
  strand_2 : String
  svtype : String
  sample_ids : String
  breakpoint_max : String
deriving DecidableEq, Repr

/-- Lines 467-471: `bp_start, bp_end = [i.split(':') for i in
fields['breakpoint_max'][4:].split(';')]` followed by
`_, fields['ivl_1'] = bp_start` and `_, fields['ivl_2'] = bp_end`.
Either unpacking raises `ValueError` unless there are exactly two parts. -/
def parseBreakpointMax (s : String) : Except PyErr (String × String) :=
  match pySplit ";" (pyDrop 4 s) with
  | [bp_start, bp_end] =>
    match pySplit ":" bp_start, pySplit ":" bp_end with
    | [_, ivl_1], [_, ivl_2] => .ok (ivl_1, ivl_2)
    | _, _ => .error .valueError
  | _ => .error .valueError

/-- Lookup `sample_id_dict[int(sample_id)]`: an `int` key in the dict
whose keys are the loop indices (`Nat`s). -/
def lookupSampleDict : List (Nat × String) → Int → Option String
  | [], _ => none
  | (k, v) :: rest, q => if (k : Int) = q then some v else lookupSampleDict rest q

/-- Lines 511-516: the genotype-building loop.  For each `id_field` in the
split evidence list: `sample_id, reads = id_field.split(',')` (ValueError
unless exactly two parts), `fields['reads'] += int(reads)` (ValueError on
a malformed numeral), `sample_uid = sample_id_dict[int(sample_id)]`
(ValueError on a malformed numeral, KeyError on an unknown id), then
`gt_dict[sample_uid] = ':'.join(['1/1', reads])` with `reads` the raw
string.  `gt_dict` is modelled as a total function initialised to `'.'`;
the Python dict is initialised with exactly the uids ever read from it. -/
def buildGenotypes (dict : List (Nat × String)) :
    List String → (String → String) → Int → Except PyErr ((String → String) × Int)
  | [], gt, reads => .ok (gt, reads)
  | idField :: rest, gt, reads =>
    match pySplit "," idField with
    | [sidStr, readsStr] =>
      match pyInt? readsStr with
      | none => .error .valueError
      | some ri =>
        match pyInt? sidStr with
        | none => .error .valueError
        | some sid =>
          match lookupSampleDict dict sid with
          | none => .error .keyError
          | some uid =>
              buildGenotypes dict rest
                (fun u => if u = uid then "1/1:" ++ readsStr else gt u) (reads + ri)
    | _ => .error .valueError

/-- The evidence list of a report line as `(sample_index, raw read-count
string, parsed read count)` triples: exactly the splits and `int()`
parses the genotype loop performs on each `id_field`, factored out so the
theorems can quantify over the listed pairs. -/
def parseSampleIdPairs : List String → Except PyErr (List (Int × String × Int))
  | [] => .ok []
  | idField :: rest =>
    match pySplit "," idField with
    | [sidStr, readsStr] =>
      match pyInt? readsStr with
      | none => .error .valueError
      | some ri =>
        match pyInt? sidStr with
        | none => .error .valueError
        | some sid =>
            (parseSampleIdPairs rest).map (fun ts => (sid, readsStr, ri) :: ts)
    | _ => .error .valueError

/-- The data of the emitted VCF line, plus the assembled strings. -/
structure LumpyVcfLine where
  chrom : String
  pos : String
  svtype3 : String
  qual : String
  infoString : String
  genotypeCols : List String
  dp : Int
  svlen : Int
  line : String
deriving DecidableEq, Repr

/-- Lines 465-524: `lumpy_output_line_to_vcf(fields, sample_id_dict,
sample_uid_order)`.  Faithful to the source's statement order:
breakpoint-descriptor unpacking; the SVLEN branch (same chromosome:
`int(ivl_2) - int(ivl_1)`, negated when `'DEL' in fields['svtype']`;
different chromosomes: line 496 `fields['svlen'] == 0` *reads* the never-
assigned key `'svlen'`, so a `KeyError` is raised right there); the
type-tag truncation `fields['svtype'][5:8]`; the evidence-list split and
genotype loop; and finally the `str.format` assembly of the INFO string
and the whole line. -/
def lumpy_output_line_to_vcf (fields : LumpyFields)
    (sample_id_dict : List (Nat × String)) (sample_uid_order : List String) :
    Except PyErr LumpyVcfLine :=
  match parseBreakpointMax fields.breakpoint_max with
  | .error e => .error e
  | .ok (ivl_1, ivl_2) =>
    if fields.chr_1 = fields.chr_2 then
      match pyInt? ivl_2 with
      | none => .error .valueError
      | some v2 =>
        match pyInt? ivl_1 with
        | none => .error .valueError
        | some v1 =>
          let svlen : Int :=
            if pyContains fields.svtype "DEL" then -(v2 - v1) else v2 - v1
          let svtype3 := pyTake 3 (pyDrop 5 fields.svtype)
          let idFields := pySplit ";" (pyDrop 4 fields.sample_ids)
          match buildGenotypes sample_id_dict idFields (fun _ => ".") 0 with
          | .error e => .error e
          | .ok (gt, reads) =>
            let cols := sample_uid_order.map gt
            let info := "IMPRECISE;SVTYPE=" ++ svtype3 ++ ";END=" ++ ivl_2
              ++ ";END_CHR=" ++ fields.chr_2 ++ ";STRAND_1=" ++ fields.strand_1
              ++ ";STRAND_2=" ++ fields.strand_2 ++ ";SVLEN=" ++ toString svlen
              ++ ";METHOD=LUMPY;DP=" ++ toString reads
            let line := joinWith "\t"
              ([fields.chr_1, ivl_1, ".", "N", "<" ++ svtype3 ++ ">",
                fields.evidence_score, ".", info, "GT:AO"] ++ cols)
            .ok ⟨fields.chr_1, ivl_1, svtype3, fields.evidence_score, info,
                 cols, reads, svlen, line⟩
    else
      -- line 496 `fields['svlen'] == 0`: a comparison, not an assignment;
      -- evaluating `fields['svlen']` raises KeyError because the key was
      -- never set on this branch.
      .error .keyError

/-- The `for i, sa in enumerate(sample_alignments)` loop of `run_lumpy`
(lines 338-342), restricted to the three name bindings the claims need:
`sample_id_dict` (`i -> uid`), `sample_uid_order` (append per iteration),
and the loop-carried binding of the Python variable `sample_uid`
(`none` = the name is unbound because the loop body never ran). -/
def lumpyLoop : Nat → List String → List (Nat × String) × List String × Option String
  | _, [] => ([], [], none)
  | i, uid :: rest =>
    let r := lumpyLoop (i + 1) rest
    ((i, uid) :: r.1, uid :: r.2.1, some (r.2.2.getD uid))

/-- The `sample_id_dict` as built by `run_lumpy` for the given sample uids. -/
def sample_id_dict_of (samples : List String) : List (Nat × String) :=
  (lumpyLoop 0 samples).1

/-- The `sample_uid_order` as built by `run_lumpy` for the given sample uids. -/
def sample_uid_order_of (samples : List String) : List String :=
  (lumpyLoop 0 samples).2.1

/-- Failures of the `run_lumpy` adapter before/at the external call:
`NameError` (line 396 reads the loop variable `sample_uid`, unbound when
`sample_alignments` was empty) and `CalledProcessError` (the lumpy binary
exited non-zero, re-raised at line 408). -/
inductive LumpyRunErr
  | nameErrorSampleUid
  | calledProcessError
deriving DecidableEq, Repr

/-- Lines 338-408 of `run_lumpy`, up to and including the external lumpy
invocation.  First component: the intermediate text-output filename
(`os.path.splitext(vcf_output_filename)[0] + '_' + sample_uid + '_' +
'.txt'`) or the exception; second component: whether the external binary
was invoked (`subprocess.check_call` at line 402 — the filename
expression at line 395-396 is evaluated strictly before it). -/
def run_lumpy (vcfRoot : String) (samples : List String)
    (lumpyBinaryFails : Bool) : Except LumpyRunErr String × Bool :=
  match (lumpyLoop 0 samples).2.2 with
  | none => (.error .nameErrorSampleUid, false)
  | some sample_uid =>
    let lumpy_output := vcfRoot ++ "_" ++ sample_uid ++ "_" ++ ".txt"
    if lumpyBinaryFails then (.error .calledProcessError, true)
    else (.ok lumpy_output, true)

/- ## Shared VCF header post-processing (`_common_postprocess_vcf`, lines 625-652) -/

/-- Line 634: the INFO ids whose header cardinality is rewritten. -/
def va_properties : List String := ["SVTYPE", "SVLEN"]

/-- Lines 635-639 `modify_header`: if any of `va_properties` occurs in the
header line, replace every `Number=1` with `Number=A`. -/
def modify_header (header_line : String) : String :=
  if va_properties.any (fun p => pyContains header_line p) then
    strReplace header_line "Number=1" "Number=A"
  else header_line

/-- Lines 643-644: the METHOD header line appended by the normalizer. -/
def method_header_line : String :=
  "##INFO=<ID=METHOD,Number=1,Type=String,Description=\"Type of approach used to detect SV\">\n"

/-- Lines 640-646, restricted to the header-line list they rewrite:
`vcf_reader._header_lines = map(modify_header, vcf_reader._header_lines)`
followed by `vcf_reader._header_lines.append(method_header_line)` —
the append is unconditional. -/
def common_postprocess_headers (header_lines : List String) : List String :=
  header_lines.map modify_header ++ [method_header_line]

/- ## Pindel record post-processing (`postprocess_pindel_vcf`, lines 658-683) -/

/-- One VCF record as `postprocess_pindel_vcf` sees it: `svlen?` is
`INFO['SVLEN'][0]` when the key is present (`none` models a record whose
INFO lacks `SVLEN`), `method?` is `INFO['METHOD']`. -/
structure PindelRecord where
  chrom : String
  pos : Int
  svlen? : Option Int
  method? : Option String
deriving DecidableEq, Repr

/-- The body of the record loop (lines 665-680): skip records without
`SVLEN`; `svlen = abs(record.INFO['SVLEN'][0])`; write the absolute value
back; skip (`continue`) when `svlen < 10`; stamp `METHOD = 'PINDEL'`;
`none` means the record is not written to the output. -/
def process_pindel_record (r : PindelRecord) : Option PindelRecord :=
  match r.svlen? with
  | none => none
  | some v =>
    let svlen : Int := |v|
    if svlen < 10 then none
    else some { r with svlen? := some svlen, method? := some "PINDEL" }

/-- Function `postprocess_pindel_vcf`, restricted to the record stream: the records
written to the temp file that replaces the original. -/
def postprocess_pindel_vcf (records : List PindelRecord) : List PindelRecord :=
  records.filterMap process_pindel_record

/- ## Sample-alignment validation (`_find_valid_sample_alignments`, lines 85-116) -/

/-- The `Dataset.STATUS` values relevant here. -/
inductive DStatus
  | pending
  | ready
  | failed
deriving DecidableEq, Repr

/-- The observable state of one sample alignment's BAM dataset backing
file: `noPath` models `get_absolute_location()` returning `None`,
`missingFile` a path that `os.stat` cannot find, `present n` an existing
file of size `n`. -/
inductive BamFile
  | noPath
  | missingFile
  | present (size : Nat)
deriving DecidableEq, Repr

/-- One sample alignment with its BAM dataset's status and backing file. -/
structure SampleAlignment where
  uid : String
  bamStatus : DStatus
  bamFile : BamFile
deriving DecidableEq, Repr

/-- Exceptions raised by `_find_valid_sample_alignments`:
`noValidInput` is line 101 `Exception('No successful alignments, Freebayes
cannot proceed.')` (the spec's `NoValidInputError`); `osError` is
`os.stat` on a missing path (line 110); `assertionFailure` is the assert
at lines 113-115. -/
inductive VErr
  | noValidInput
  | osError
  | assertionFailure
deriving DecidableEq, Repr

/-- Lines 106-112: build `valid_bam_files` from the dataset paths of the
READY-filtered list, skipping `None` paths and empty files; `os.stat` on
a missing file raises. -/
def collectValidBamFiles : List BamFile → Except VErr (List BamFile)
  | [] => .ok []
  | .noPath :: rest => collectValidBamFiles rest
  | .missingFile :: _ => .error .osError
  | .present 0 :: rest => collectValidBamFiles rest
  | .present (n+1) :: rest =>
      (collectValidBamFiles rest).map (fun v => .present (n+1) :: v)

/-- Function `_find_valid_sample_alignments`: filter to READY alignments; raise
when none; then assert that every one of them has a present, non-empty
backing file (the file check filters the *files*, and the assert compares
the counts — it does not drop samples); return the READY-filtered list. -/
def find_valid_sample_alignments (sas : List SampleAlignment) :
    Except VErr (List SampleAlignment) :=
  let readyList := sas.filter (fun sa => sa.bamStatus = DStatus.ready)
  if readyList.length = 0 then .error .noValidInput
  else
    match collectValidBamFiles (readyList.map (fun sa => sa.bamFile)) with
    | .error e => .error e
    | .ok valid =>
      if valid.length = readyList.length then .ok readyList
      else .error .assertionFailure

/- ## Dataset registration and orchestration (`find_variants_with_tool`, lines 119-191) -/

/-- A registered `Dataset` row: `(type, label, filesystem_location)` as
created at lines 164-168, tagged with the run that created it so that
"the newer artifact" is expressible. -/
structure DatasetRec where
  dtype : String
  label : String
  loc : String
  runId : Nat
deriving DecidableEq, Repr

/-- The filter of lines 156-160: same type, label and filesystem
location. -/
def dataset_matches (t loc : String) (d : DatasetRec) : Bool :=
  d.dtype == t && d.label == t && d.loc == loc

/-- Line 162 `existing_set[0].delete()`: remove the first matching row. -/
def deleteFirstMatch (p : DatasetRec → Bool) : List DatasetRec → List DatasetRec
  | [] => []
  | d :: ds => if p d then ds else d :: deleteFirstMatch p ds

/-- Lines 154-169: delete the first existing dataset with the same
`(type, label, filesystem_location)` if any, then create and register the
new one. -/
def register_vcf_dataset (registry : List DatasetRec) (t loc : String)
    (runId : Nat) : List DatasetRec :=
  let existing := registry.filter (dataset_matches t loc)
  let registry' :=
    if existing.length > 0 then deleteFirstMatch (dataset_matches t loc) registry
    else registry
  registry' ++ [⟨t, t, loc, runId⟩]

/-- Observable events of one `find_variants_with_tool` run, in program
order. -/
inductive OEvent
  | validateSamples
  | setStatusVariantCalling
  | saveGroup
  | invokeTool
  | registerArtifact
deriving DecidableEq, Repr

/-- Outcome of one orchestrated run: its event trace, the dataset
registry after the run, whether it returned `True`, and the propagated
exception if any. -/
structure OrchOutcome where
  trace : List OEvent
  registry : List DatasetRec
  succeeded : Bool
  error? : Option VErr
deriving DecidableEq, Repr

/-- Function `find_variants_with_tool` (lines 119-191), up to artifact
registration.  Program order per the source: `get_common_tool_params`
(which calls `_find_valid_sample_alignments` and can raise) runs first;
then `alignment_group.status = VARIANT_CALLING; alignment_group.save()`
(lines 137-138, unconditional once parameters resolved); then the tool
adapter (line 147); a `False` return stops before registration (line
151); on success the dataset supersession and creation of lines 154-169
runs.  `toolSucceeds` abstracts the adapter's boolean result. -/
def find_variants_with_tool (sas : List SampleAlignment) (toolSucceeds : Bool)
    (registry : List DatasetRec) (vcfType loc : String) (runId : Nat) :
    OrchOutcome :=
  match find_valid_sample_alignments sas with
  | .error e => ⟨[.validateSamples], registry, false, some e⟩
  | .ok _ =>
    if toolSucceeds then
      ⟨[.validateSamples, .setStatusVariantCalling, .saveGroup, .invokeTool,
        .registerArtifact],
       register_vcf_dataset registry vcfType loc runId, true, none⟩
    else
      ⟨[.validateSamples, .setStatusVariantCalling, .saveGroup, .invokeTool],
       registry, false, none⟩

/- ## Delly adapter cleanup (`run_delly`, lines 539-609) -/

/-- The duplicated per-sample alignment files created at lines 559-565:
for each sample, `cp` of the BAM to `<uid>.bam` and of its index to
`<uid>.bam.bai`. -/
def dupBamFiles (samples : List String) : List String :=
  (samples.map (fun s => [s ++ ".bam", s ++ ".bam.bai"])).flatten

/-- Outcome of one `run_delly` invocation: which duplicated files are
still on disk when control leaves the function, whether an exception
propagated, and whether `return True` was reached. -/
structure DellyResult where
  leftoverDupFiles : List String
  raised : Bool
  returned : Bool
deriving DecidableEq, Repr

/-- Function `run_delly`, restricted to the lifecycle of the duplicated alignment
files.  The per-class delly invocations use `subprocess.call`, so their
exit codes (`dellyClassExitCodes`) never raise; the combine/convert phase
(`vcf-concat`/`vcf-sort` at lines 588-591, or the empty-output
`pindel2vcf` fallback at lines 594-600) uses `subprocess.check_call`, so
`combineStepFails` models it raising.  The cleanup loop (lines 602-605)
is straight-line code after that phase — there is no `try/finally` — so
it runs only when the combine phase did not raise. -/
def run_delly (samples : List String) (_dellyClassExitCodes : List Nat)
    (combineStepFails : Bool) : DellyResult :=
  let dups := dupBamFiles samples
  if combineStepFails then
    ⟨dups, true, false⟩
  else
    ⟨[], false, true⟩

/-- A BAM backing file that passes the validity check of lines 106-112:
the path exists and the file is non-empty. -/
def bamFileValid : BamFile → Bool
  | .present (_+1) => true
  | _ => false

/-- Whether an `Except` computation finished without raising. -/
def exceptOk {ε α : Type} : Except ε α → Bool
  | .ok _ => true
  | .error _ => false

/- ## Lemmas: the sample tables built by the `run_lumpy` loop -/

theorem lumpyLoop_order : ∀ (i : Nat) (s : List String), (lumpyLoop i s).2.1 = s
  | _, [] => rfl
  | i, a :: rest => by
    simp [lumpyLoop, lumpyLoop_order (i + 1) rest]

theorem lumpyLoop_lookup_at : ∀ (s : List String) (i j : Nat),
    lookupSampleDict (lumpyLoop i s).1 ((i + j : Nat) : Int) = s[j]?
  | [], i, j => by simp [lumpyLoop, lookupSampleDict]
  | a :: rest, i, 0 => by simp [lumpyLoop, lookupSampleDict]
  | a :: rest, i, j+1 => by
    have ih := lumpyLoop_lookup_at rest (i + 1) j
    have hcast : ((i + (j + 1) : Nat) : Int) = (((i + 1) + j : Nat) : Int) := by
      push_cast; ring
    have hne : ¬ ((i : Int) = ((i + (j + 1) : Nat) : Int)) := by
      push_cast; omega
    simp only [lumpyLoop, lookupSampleDict, if_neg hne, List.getElem?_cons_succ]
    rw [hcast]
    exact ih

theorem lumpyLoop_lookup_inv : ∀ (s : List String) (i : Nat) (q : Int) (u : String),
    lookupSampleDict (lumpyLoop i s).1 q = some u →
    ∃ j : Nat, j < s.length ∧ q = ((i + j : Nat) : Int) ∧ s[j]? = some u
  | [], _, _, _, h => by simp [lumpyLoop, lookupSampleDict] at h
  | a :: rest, i, q, u, h => by
    simp only [lumpyLoop, lookupSampleDict] at h
    by_cases hq : (i : Int) = q
    · rw [if_pos hq] at h
      refine ⟨0, by simp, by simpa using hq.symm, by simpa using h⟩
    · rw [if_neg hq] at h
      obtain ⟨j, hj, hq', hg⟩ := lumpyLoop_lookup_inv rest (i + 1) q u h
      refine ⟨j + 1, by simpa using Nat.succ_lt_succ hj, ?_, by simpa using hg⟩
      rw [hq']; push_cast; ring

theorem sample_id_dict_inj (samples : List String) (hn : samples.Nodup)
    (q1 q2 : Int) (u : String)
    (h1 : lookupSampleDict (sample_id_dict_of samples) q1 = some u)
    (h2 : lookupSampleDict (sample_id_dict_of samples) q2 = some u) : q1 = q2 := by
  obtain ⟨j1, hl1, he1, hg1⟩ := lumpyLoop_lookup_inv samples 0 q1 u h1
  obtain ⟨j2, hl2, he2, hg2⟩ := lumpyLoop_lookup_inv samples 0 q2 u h2
  have hj : j1 = j2 := List.getElem?_inj hl1 hn (hg1.trans hg2.symm)
  subst hj
  rw [he1, he2]

/- ## Lemmas: the genotype-building loop -/

theorem buildGenotypes_spec :
    ∀ (dict : List (Nat × String)) (idFields : List String)
      (gt0 : String → String) (r0 : Int) (gt' : String → String) (r' : Int)
      (triples : List (Int × String × Int)),
    buildGenotypes dict idFields gt0 r0 = .ok (gt', r') →
    parseSampleIdPairs idFields = .ok triples →
    r' = r0 + (triples.map (fun t => t.2.2)).sum ∧
    (∀ t ∈ triples, ∃ u, lookupSampleDict dict t.1 = some u) ∧
    (∀ u, (∀ t ∈ triples, lookupSampleDict dict t.1 ≠ some u) → gt' u = gt0 u) ∧
    ((triples.map (fun t => t.1)).Nodup →
     (∀ q1 q2 u, lookupSampleDict dict q1 = some u →
        lookupSampleDict dict q2 = some u → q1 = q2) →
     ∀ t ∈ triples, ∀ u, lookupSampleDict dict t.1 = some u →
        gt' u = "1/1:" ++ t.2.1)
  | dict, [], gt0, r0, gt', r', triples, hb, hp => by
    simp only [buildGenotypes, Except.ok.injEq, Prod.mk.injEq] at hb
    simp only [parseSampleIdPairs, Except.ok.injEq] at hp
    obtain ⟨hgt, hr⟩ := hb
    subst hgt; subst hr; subst hp
    simp
  | dict, idField :: rest, gt0, r0, gt', r', triples, hb, hp => by
    simp only [buildGenotypes] at hb
    simp only [parseSampleIdPairs] at hp
    cases hsp : pySplit "," idField with
    | nil => rw [hsp] at hb; simp at hb
    | cons a as =>
      cases as with
      | nil => rw [hsp] at hb; simp at hb
      | cons b bs =>
        cases bs with
        | cons c cs => rw [hsp] at hb; simp at hb
        | nil =>
          rw [hsp] at hb hp
          dsimp only at hb hp
          cases hri : pyInt? b with
          | none => rw [hri] at hb; simp at hb
          | some ri =>
            rw [hri] at hb hp
            dsimp only at hb hp
            cases hsid : pyInt? a with
            | none => rw [hsid] at hb; simp at hb
            | some sid =>
              rw [hsid] at hb hp
              dsimp only at hb hp
              cases hlu : lookupSampleDict dict sid with
              | none => rw [hlu] at hb; simp at hb
              | some uid =>
                rw [hlu] at hb
                dsimp only at hb
                cases hrec : parseSampleIdPairs rest with
                | error e => rw [hrec] at hp; exact absurd hp (by simp [Except.map])
                | ok ts =>
                  rw [hrec] at hp
                  simp only [Except.map, Except.ok.injEq] at hp
                  subst hp
                  obtain ⟨ih1, ih2, ih3, ih4⟩ := buildGenotypes_spec dict rest
                    (fun u => if u = uid then "1/1:" ++ b else gt0 u) (r0 + ri)
                    gt' r' ts hb hrec
                  refine ⟨?_, ?_, ?_, ?_⟩
                  · simp only [List.map_cons, List.sum_cons]
                    rw [ih1]; ring
                  · intro t ht
                    rcases List.mem_cons.mp ht with h | h
                    · subst h; exact ⟨uid, hlu⟩
                    · exact ih2 t h
                  · intro u hu
                    have hrest : ∀ t ∈ ts, lookupSampleDict dict t.1 ≠ some u := by
                      intro t ht
                      exact hu t (List.mem_cons_of_mem _ ht)
                    have hhead : lookupSampleDict dict sid ≠ some u :=
                      hu (sid, b, ri) (List.mem_cons_self _ _)
                    have hne : u ≠ uid := by
                      intro he; subst he; exact hhead hlu
                    rw [ih3 u hrest]
                    simp [hne]
                  · intro hnd hinj t ht u hu
                    simp only [List.map_cons, List.nodup_cons] at hnd
                    rcases List.mem_cons.mp ht with h | h
                    · subst h
                      dsimp only at hu ⊢
                      have huid : u = uid := Option.some.inj (hu.symm.trans hlu)
                      subst huid
                      have hrest : ∀ t' ∈ ts,
                          lookupSampleDict dict t'.1 ≠ some u := by
                        intro t' ht' hcontra
                        have hts : t'.1 = sid := hinj t'.1 sid u hcontra hlu
                        exact hnd.1 (hts ▸ List.mem_map_of_mem (fun t => t.1) ht')
                      rw [ih3 u hrest]
                      simp
                    · exact ih4 hnd.2 hinj t h u hu

/- ## Lemmas: destructuring a successful translation -/

theorem lumpy_translate_ok (fields : LumpyFields) (dict : List (Nat × String))
    (order : List String) (out : LumpyVcfLine)
    (h : lumpy_output_line_to_vcf fields dict order = .ok out) :
    ∃ ivl_1 ivl_2 v1 v2 gt reads,
      parseBreakpointMax fields.breakpoint_max = .ok (ivl_1, ivl_2) ∧
      fields.chr_1 = fields.chr_2 ∧
      pyInt? ivl_1 = some v1 ∧ pyInt? ivl_2 = some v2 ∧
      buildGenotypes dict (pySplit ";" (pyDrop 4 fields.sample_ids))
        (fun _ => ".") 0 = .ok (gt, reads) ∧
      out.genotypeCols = order.map gt ∧ out.dp = reads ∧ out.pos = ivl_1 ∧
      out.svlen =
        (if pyContains fields.svtype "DEL" then -(v2 - v1) else v2 - v1) := by
  unfold lumpy_output_line_to_vcf at h
  cases hbp : parseBreakpointMax fields.breakpoint_max with
  | error e => rw [hbp] at h; simp at h
  | ok p =>
    obtain ⟨ivl_1, ivl_2⟩ := p
    rw [hbp] at h
    dsimp only at h
    by_cases hc : fields.chr_1 = fields.chr_2
    · rw [if_pos hc] at h
      cases h2 : pyInt? ivl_2 with
      | none => rw [h2] at h; simp at h
      | some v2 =>
        rw [h2] at h; dsimp only at h
        cases h1 : pyInt? ivl_1 with
        | none => rw [h1] at h; simp at h
        | some v1 =>
          rw [h1] at h; dsimp only at h
          cases hbg : buildGenotypes dict
              (pySplit ";" (pyDrop 4 fields.sample_ids)) (fun _ => ".") 0 with
          | error e => rw [hbg] at h; simp at h
          | ok p2 =>
            obtain ⟨gt, reads⟩ := p2
            rw [hbg] at h
            dsimp only at h
            injection h with h'
            subst h'
            exact ⟨ivl_1, ivl_2, v1, v2, gt, reads, rfl, hc, h1, h2, rfl,
                   rfl, rfl, rfl, rfl⟩
    · rw [if_neg hc] at h; simp at h

/- ## Claim theorems -/

/-- C1: for every breakend report line the lumpy adapter translates, the
emitted VCF data line has exactly one genotype column per sample
alignment known to the invocation, in the caller-invocation-stable sample
order (`sample_uid_order`); every sample absent from the line's
per-sample evidence list keeps the no-call genotype `"."`; every listed
pair `(sample_index, read_count)` sets that sample's column to the
homozygous-variant string `"1/1:<read_count>"`; and the record's DP value
equals the sum of all listed read counts. -/
theorem C1_lumpy_genotype_columns
    (samples : List String) (fields : LumpyFields) (out : LumpyVcfLine)
    (triples : List (Int × String × Int))
    (hsam : samples.Nodup)
    (hpairs : parseSampleIdPairs (pySplit ";" (pyDrop 4 fields.sample_ids))
        = .ok triples)
    (hkeys : (triples.map (fun t => t.1)).Nodup)
    (h : lumpy_output_line_to_vcf fields (sample_id_dict_of samples)
        (sample_uid_order_of samples) = .ok out) :
    out.genotypeCols.length = samples.length ∧
    (∀ j : Nat, j < samples.length →
      (∀ rs ri, ((j : Int), rs, ri) ∉ triples) →
      out.genotypeCols[j]? = some ".") ∧
    (∀ j : Nat, ∀ rs ri, ((j : Int), rs, ri) ∈ triples →
      out.genotypeCols[j]? = some ("1/1:" ++ rs)) ∧
    out.dp = (triples.map (fun t => t.2.2)).sum := by
  obtain ⟨i1, i2, v1, v2, gt, reads, hbp, hc, h1, h2, hbg, hcols, hdp, hpos, hsv⟩ :=
    lumpy_translate_ok fields _ _ out h
  obtain ⟨hr, hex, huntouched, hset⟩ := buildGenotypes_spec _ _ _ _ _ _ _ hbg hpairs
  have horder : sample_uid_order_of samples = samples := lumpyLoop_order 0 samples
  have hinj : ∀ q1 q2 u, lookupSampleDict (sample_id_dict_of samples) q1 = some u →
      lookupSampleDict (sample_id_dict_of samples) q2 = some u → q1 = q2 :=
    fun q1 q2 u a b => sample_id_dict_inj samples hsam q1 q2 u a b
  refine ⟨?_, ?_, ?_, ?_⟩
  · rw [hcols, horder, List.length_map]
  · intro j hj habs
    rw [hcols, horder, List.getElem?_map]
    have hjel : samples[j]? = some samples[j] := List.getElem?_eq_getElem hj
    rw [hjel]
    have hnt : ∀ t ∈ triples,
        lookupSampleDict (sample_id_dict_of samples) t.1 ≠ some samples[j] := by
      intro t ht hcontra
      obtain ⟨j', hj', hqe, hg⟩ := lumpyLoop_lookup_inv samples 0 t.1 _ hcontra
      have hjj : j' = j := by
        apply List.getElem?_inj hj' hsam
        rw [hg, hjel]
      subst hjj
      obtain ⟨t1, t2, t3⟩ := t
      dsimp only at hqe
      have ht1 : t1 = (j' : Int) := by rw [hqe]; push_cast; ring
      subst ht1
      exact habs t2 t3 ht
    simp only [Option.map_some']
    rw [huntouched samples[j] hnt]
  · intro j rs ri hmem
    obtain ⟨u, hu⟩ := hex _ hmem
    dsimp only at hu
    obtain ⟨j', hj', hqe, hg⟩ := lumpyLoop_lookup_inv samples 0 _ u hu
    have hjj : j = j' := by
      have hq2 := hqe
      push_cast at hq2
      omega
    subst hjj
    have hgt := hset hkeys hinj _ hmem u hu
    dsimp only at hgt
    rw [hcols, horder, List.getElem?_map, hg]
    simp only [Option.map_some']
    rw [hgt]
  · rw [hdp, hr]
    simp

/-- Witness for C1: the scenario line with breakpoints `chr1:100;chr1:250`,
evidence list `IDS:0,5;1,3` and two known samples yields two genotype
columns `1/1:5` and `1/1:3` and combined depth 8. -/
theorem C1_lumpy_genotype_columns_witness :
    Except.map
      (fun o => (o.genotypeCols.length, o.genotypeCols[0]?, o.genotypeCols[1]?, o.dp))
      (lumpy_output_line_to_vcf
        ⟨"chr1", "chr1", "9", "+", "-", "TYPE:DELETION", "IDS:0,5;1,3",
         "MAX:chr1:100;chr1:250"⟩
        (sample_id_dict_of ["sampleA", "sampleB"])
        (sample_uid_order_of ["sampleA", "sampleB"]))
    = .ok (2, some "1/1:5", some "1/1:3", 8) := by
  cases hh : lumpy_output_line_to_vcf
      ⟨"chr1", "chr1", "9", "+", "-", "TYPE:DELETION", "IDS:0,5;1,3",
       "MAX:chr1:100;chr1:250"⟩
      (sample_id_dict_of ["sampleA", "sampleB"])
      (sample_uid_order_of ["sampleA", "sampleB"]) with
  | error e =>
    cases e with
    | valueError => exact absurd hh (by decide)
    | keyError => exact absurd hh (by decide)
  | ok out =>
    obtain ⟨hlen, hdot, hsetc, hdp⟩ := C1_lumpy_genotype_columns
      ["sampleA", "sampleB"] _ out
      [((0 : Int), "5", (5 : Int)), ((1 : Int), "3", (3 : Int))]
      (by decide) (by decide) (by decide) hh
    have h0 := hsetc 0 "5" 5 (by decide)
    have h1 := hsetc 1 "3" 3 (by decide)
    simp only [Except.map]
    rw [hlen, h0, h1, hdp]
    refine congrArg Except.ok ?_
    decide

/-- C2: for every breakend report line whose record is emitted (success
forces the two breakpoints onto the same sequence), SVLEN equals the
signed difference between the breakpoint-2 and breakpoint-1 most-probable
positions, negated when the raw type tag contains `DEL` (the source
checks `'DEL' in fields['svtype']` before truncating the tag). -/
theorem C2_lumpy_svlen
    (fields : LumpyFields) (dict : List (Nat × String)) (order : List String)
    (out : LumpyVcfLine) (ivl_1 ivl_2 : String) (p1 p2 : Int)
    (hbp : parseBreakpointMax fields.breakpoint_max = .ok (ivl_1, ivl_2))
    (h1 : pyInt? ivl_1 = some p1) (h2 : pyInt? ivl_2 = some p2)
    (h : lumpy_output_line_to_vcf fields dict order = .ok out) :
    out.svlen =
      if pyContains fields.svtype "DEL" then -(p2 - p1) else p2 - p1 := by
  obtain ⟨i1, i2, v1, v2, gt, reads, hbp', hc, h1', h2', hbg, hcols, hdp, hpos, hsv⟩ :=
    lumpy_translate_ok fields dict order out h
  have hpair := Except.ok.inj (hbp.symm.trans hbp')
  have e1 : ivl_1 = i1 := congrArg Prod.fst hpair
  have e2 : ivl_2 = i2 := congrArg Prod.snd hpair
  subst e1; subst e2
  have ev1 : p1 = v1 := Option.some.inj (h1.symm.trans h1')
  have ev2 : p2 = v2 := Option.some.inj (h2.symm.trans h2')
  subst ev1; subst ev2
  exact hsv

/-- Witness for C2: a deletion line with both breakpoints on `chr1`, at
most-probable positions 100 and 250, yields SVLEN `-150`. -/
theorem C2_lumpy_svlen_witness :
    Except.map (fun o => o.svlen)
      (lumpy_output_line_to_vcf
        ⟨"chr1", "chr1", "9", "+", "-", "TYPE:DELETION", "IDS:0,5;1,3",
         "MAX:chr1:100;chr1:250"⟩
        (sample_id_dict_of ["sampleA", "sampleB"])
        (sample_uid_order_of ["sampleA", "sampleB"]))
    = .ok (-150) := by
  cases hh : lumpy_output_line_to_vcf
      ⟨"chr1", "chr1", "9", "+", "-", "TYPE:DELETION", "IDS:0,5;1,3",
       "MAX:chr1:100;chr1:250"⟩
      (sample_id_dict_of ["sampleA", "sampleB"])
      (sample_uid_order_of ["sampleA", "sampleB"]) with
  | error e => cases e <;> exact absurd hh (by decide)
  | ok out =>
    have hsv := C2_lumpy_svlen _ _ _ out "100" "250" 100 250
      (by decide) (by decide) (by decide) hh
    simp only [Except.map]
    rw [hsv]
    decide

/-- C3 (code bug): for a breakend line whose two breakpoints lie on
different sequences the translator does NOT emit a record — line 496
`fields['svlen'] == 0` is a comparison rather than an assignment, and
evaluating `fields['svlen']` on that line raises `KeyError`, so the
translation fails.  The same line with both breakpoints on `chr1`
translates successfully, isolating the failure to the cross-sequence
branch. -/
theorem C3_lumpy_cross_sequence_raises :
    lumpy_output_line_to_vcf
      ⟨"chr1", "chr2", "9", "+", "-", "TYPE:DELETION", "IDS:0,5",
       "MAX:chr1:100;chr2:250"⟩
      (sample_id_dict_of ["sampleA"]) (sample_uid_order_of ["sampleA"])
      = .error .keyError ∧
    exceptOk (lumpy_output_line_to_vcf
      ⟨"chr1", "chr1", "9", "+", "-", "TYPE:DELETION", "IDS:0,5",
       "MAX:chr1:100;chr1:250"⟩
      (sample_id_dict_of ["sampleA"]) (sample_uid_order_of ["sampleA"]))
      = true := by
  constructor
  · decide
  · decide

/-- Counterexample to C4 as stated: the normalizer appends its METHOD
header line unconditionally — there is no already-present check — so
running `_common_postprocess_vcf` twice on a header set yields two METHOD
lines, not the same header set as running it once. -/
theorem C4_counterexample_method_header_duplicated :
    (common_postprocess_headers (common_postprocess_headers
      ["##INFO=<ID=SVLEN,Number=1,Type=Integer,Description=\"Difference in length between REF and ALT alleles\">"])).count
        method_header_line = 2 ∧
    common_postprocess_headers (common_postprocess_headers
      ["##INFO=<ID=SVLEN,Number=1,Type=Integer,Description=\"Difference in length between REF and ALT alleles\">"])
    ≠ common_postprocess_headers
      ["##INFO=<ID=SVLEN,Number=1,Type=Integer,Description=\"Difference in length between REF and ALT alleles\">"] := by
  constructor
  · decide
  · decide

/-- C4 as amended: every header line declaring SVTYPE or SVLEN has its
`Number=1` cardinality rewritten to `Number=A` in the normalized header
set, and a METHOD header line is appended — but unconditionally on every
run, so the normalization is not idempotent: running it twice leaves at
least two METHOD header lines. -/
theorem C4_header_normalization_amended (hs : List String) :
    (∀ line ∈ hs, (pyContains line "SVTYPE" || pyContains line "SVLEN") = true →
        strReplace line "Number=1" "Number=A" ∈ common_postprocess_headers hs) ∧
    method_header_line ∈ common_postprocess_headers hs ∧
    2 ≤ (common_postprocess_headers (common_postprocess_headers hs)).count
          method_header_line := by
  refine ⟨?_, ?_, ?_⟩
  · intro line hline hcond
    have hmod : modify_header line = strReplace line "Number=1" "Number=A" := by
      unfold modify_header
      rw [if_pos]
      simp only [va_properties, List.any_cons, List.any_nil, Bool.or_false]
      exact hcond
    exact hmod ▸ List.mem_append_left _ (List.mem_map_of_mem _ hline)
  · exact List.mem_append_right _ (by simp)
  · have hm : modify_header method_header_line = method_header_line := by decide
    unfold common_postprocess_headers
    rw [List.map_append]
    simp only [List.map_cons, List.map_nil, hm]
    rw [List.count_append, List.count_append]
    simp

/-- Witness for the amended C4: an SVTYPE header line gets its cardinality
rewritten, and two METHOD lines are present after two runs. -/
theorem C4_header_normalization_amended_witness :
    "##INFO=<ID=SVTYPE,Number=A,Type=String,Description=\"Type of structural variant\">"
      ∈ common_postprocess_headers
        ["##INFO=<ID=SVTYPE,Number=1,Type=String,Description=\"Type of structural variant\">"] ∧
    2 ≤ (common_postprocess_headers (common_postprocess_headers
        ["##INFO=<ID=SVTYPE,Number=1,Type=String,Description=\"Type of structural variant\">"])).count
          method_header_line := by
  have h := C4_header_normalization_amended
    ["##INFO=<ID=SVTYPE,Number=1,Type=String,Description=\"Type of structural variant\">"]
  refine ⟨?_, h.2.2⟩
  have hmem := h.1
    "##INFO=<ID=SVTYPE,Number=1,Type=String,Description=\"Type of structural variant\">"
    (by decide) (by decide)
  have he : strReplace
      "##INFO=<ID=SVTYPE,Number=1,Type=String,Description=\"Type of structural variant\">"
      "Number=1" "Number=A"
      = "##INFO=<ID=SVTYPE,Number=A,Type=String,Description=\"Type of structural variant\">" := by
    decide
  exact he ▸ hmem

/-- C5: every record emitted by pindel postprocessing carries the absolute
value of some input record's SVLEN (hence non-negative), no emitted record
has SVLEN below the fixed 10-base minimum, and every emitted record's
METHOD is `PINDEL`. -/
theorem C5_pindel_postprocess
    (records : List PindelRecord) (r : PindelRecord)
    (hr : r ∈ postprocess_pindel_vcf records) :
    (∃ r0 ∈ records, ∃ v : Int, r0.svlen? = some v ∧ r.svlen? = some |v|) ∧
    (∀ n : Int, r.svlen? = some n → 0 ≤ n ∧ 10 ≤ n) ∧
    r.method? = some "PINDEL" := by
  rw [postprocess_pindel_vcf, List.mem_filterMap] at hr
  obtain ⟨a, ha, hpa⟩ := hr
  unfold process_pindel_record at hpa
  cases hv : a.svlen? with
  | none => rw [hv] at hpa; simp at hpa
  | some v =>
    rw [hv] at hpa
    dsimp only at hpa
    by_cases hlt : |v| < 10
    · rw [if_pos hlt] at hpa; simp at hpa
    · rw [if_neg hlt] at hpa
      injection hpa with h'
      subst h'
      refine ⟨⟨a, ha, v, hv, rfl⟩, ?_, rfl⟩
      intro n hn
      have : n = |v| := Option.some.inj hn.symm
      subst this
      exact ⟨abs_nonneg v, by omega⟩

/-- Witness for C5: an input record with SVLEN -42 is emitted with
SVLEN 42 and METHOD `PINDEL`. -/
theorem C5_pindel_postprocess_witness :
    (PindelRecord.mk "chr1" 5 (some 42) (some "PINDEL"))
      ∈ postprocess_pindel_vcf [⟨"chr1", 5, some (-42), none⟩] ∧
    (PindelRecord.mk "chr1" 5 (some 42) (some "PINDEL")).method? = some "PINDEL" ∧
    0 ≤ (42 : Int) ∧ 10 ≤ (42 : Int) := by
  have h := C5_pindel_postprocess [⟨"chr1", 5, some (-42), none⟩]
    ⟨"chr1", 5, some 42, some "PINDEL"⟩ (by decide)
  exact ⟨by decide, h.2.2, h.2.1 42 rfl⟩

/- ## Lemmas: the bam-file validity check of `_find_valid_sample_alignments` -/

theorem collectValidBamFiles_length_le :
    ∀ (l v : List BamFile), collectValidBamFiles l = .ok v → v.length ≤ l.length
  | [], v, h => by
    simp only [collectValidBamFiles, Except.ok.injEq] at h
    subst h; simp
  | .noPath :: rest, v, h => by
    have := collectValidBamFiles_length_le rest v h
    simpa using Nat.le_succ_of_le this
  | .missingFile :: rest, v, h => by simp [collectValidBamFiles] at h
  | .present 0 :: rest, v, h => by
    have := collectValidBamFiles_length_le rest v (by simpa [collectValidBamFiles] using h)
    simpa using Nat.le_succ_of_le this
  | .present (n+1) :: rest, v, h => by
    simp only [collectValidBamFiles] at h
    cases hrec : collectValidBamFiles rest with
    | error e => rw [hrec] at h; simp [Except.map] at h
    | ok v' =>
      rw [hrec] at h
      simp only [Except.map, Except.ok.injEq] at h
      subst h
      have := collectValidBamFiles_length_le rest v' hrec
      simpa using Nat.succ_le_succ this

theorem collectValidBamFiles_all_valid :
    ∀ (l v : List BamFile), collectValidBamFiles l = .ok v →
    v.length = l.length → ∀ b ∈ l, bamFileValid b = true
  | [], _, _, _, b, hb => by simp at hb
  | .noPath :: rest, v, h, hlen, b, hb => by
    have hle := collectValidBamFiles_length_le rest v h
    simp at hlen
    omega
  | .missingFile :: rest, v, h, _, b, hb => by simp [collectValidBamFiles] at h
  | .present 0 :: rest, v, h, hlen, b, hb => by
    have h' : collectValidBamFiles rest = .ok v := by
      simpa [collectValidBamFiles] using h
    have hle := collectValidBamFiles_length_le rest v h'
    simp at hlen
    omega
  | .present (n+1) :: rest, v, h, hlen, b, hb => by
    simp only [collectValidBamFiles] at h
    cases hrec : collectValidBamFiles rest with
    | error e => rw [hrec] at h; simp [Except.map] at h
    | ok v' =>
      rw [hrec] at h
      simp only [Except.map, Except.ok.injEq] at h
      subst h
      rcases List.mem_cons.mp hb with hb | hb
      · subst hb; rfl
      · have hlen' : v'.length = rest.length := by simpa using hlen
        exact collectValidBamFiles_all_valid rest v' hrec hlen' b hb

/-- C6 as amended: the validator returns the READY-status alignments,
raising `NoValidInputError` when none is READY (in which case the
orchestrated run registers no artifact); it does not *filter* on backing
files — instead, when it returns at all, every READY alignment's backing
file was present and non-empty, so the returned set coincides with the
READY-and-valid-file set; a READY alignment with a missing or empty file
makes it raise an `AssertionError` instead. -/
theorem C6_sample_validation_amended (sas : List SampleAlignment) :
    (∀ out, find_valid_sample_alignments sas = .ok out →
      out = sas.filter
        (fun sa => decide (sa.bamStatus = DStatus.ready) && bamFileValid sa.bamFile)) ∧
    (sas.filter (fun sa => sa.bamStatus = DStatus.ready) = [] →
      find_valid_sample_alignments sas = .error .noValidInput ∧
      ∀ toolSucceeds registry t loc runId,
        (find_variants_with_tool sas toolSucceeds registry t loc runId).registry
          = registry) := by
  constructor
  · intro out h
    unfold find_valid_sample_alignments at h
    by_cases hz : (sas.filter (fun sa => sa.bamStatus = DStatus.ready)).length = 0
    · rw [if_pos hz] at h; simp at h
    · rw [if_neg hz] at h
      cases hc : collectValidBamFiles
          ((sas.filter (fun sa => sa.bamStatus = DStatus.ready)).map
            (fun sa => sa.bamFile)) with
      | error e => rw [hc] at h; simp at h
      | ok valid =>
        rw [hc] at h
        dsimp only at h
        by_cases hl : valid.length
            = (sas.filter (fun sa => sa.bamStatus = DStatus.ready)).length
        · rw [if_pos hl] at h
          injection h with h'
          subst h'
          have hall := collectValidBamFiles_all_valid _ _ hc (by simpa using hl)
          refine (List.filter_congr ?_).symm.trans rfl
          intro sa hsa
          by_cases hready : sa.bamStatus = DStatus.ready
          · have hvalid : bamFileValid sa.bamFile = true := by
              apply hall
              exact List.mem_map_of_mem _ (List.mem_filter.mpr ⟨hsa, by simp [hready]⟩)
            simp [hready, hvalid]
          · simp [hready]
        · rw [if_neg hl] at h; simp at h
  · intro hempty
    have hz : (sas.filter (fun sa => sa.bamStatus = DStatus.ready)).length = 0 := by
      rw [hempty]; rfl
    have herr : find_valid_sample_alignments sas = .error .noValidInput := by
      unfold find_valid_sample_alignments
      rw [if_pos hz]
    refine ⟨herr, ?_⟩
    intro toolSucceeds registry t loc runId
    unfold find_variants_with_tool
    rw [herr]

/-- Counterexample to C6 as stated: one sample alignment, READY but with
an empty backing file.  The READY-and-valid set is empty, so the claim
demands `NoValidInputError`; the source instead fails its count assert. -/
theorem C6_counterexample_assert_not_novalidinput :
    ([⟨"s1", DStatus.ready, BamFile.present 0⟩] : List SampleAlignment).filter
      (fun sa => decide (sa.bamStatus = DStatus.ready) && bamFileValid sa.bamFile)
      = [] ∧
    find_valid_sample_alignments [⟨"s1", DStatus.ready, BamFile.present 0⟩]
      = .error .assertionFailure ∧
    VErr.assertionFailure ≠ VErr.noValidInput := by
  exact ⟨by decide, by decide, by decide⟩

/-- Witness for the amended C6: a group with no READY alignment raises
`NoValidInputError` and registers nothing; a group with one READY, valid
alignment and one failed alignment returns exactly the READY one. -/
theorem C6_sample_validation_amended_witness :
    find_valid_sample_alignments [⟨"s1", DStatus.failed, BamFile.present 5⟩]
      = .error .noValidInput ∧
    (find_variants_with_tool [⟨"s1", DStatus.failed, BamFile.present 5⟩]
      true [] "VCF_FREEBAYES" "a.vcf" 1).registry = [] ∧
    ([⟨"s1", DStatus.ready, BamFile.present 5⟩,
      ⟨"s2", DStatus.failed, BamFile.present 7⟩] : List SampleAlignment).filter
        (fun sa => decide (sa.bamStatus = DStatus.ready) && bamFileValid sa.bamFile)
      = [⟨"s1", DStatus.ready, BamFile.present 5⟩] := by
  have h1 := (C6_sample_validation_amended
    [⟨"s1", DStatus.failed, BamFile.present 5⟩]).2 (by decide)
  have h2 := (C6_sample_validation_amended
    [⟨"s1", DStatus.ready, BamFile.present 5⟩,
     ⟨"s2", DStatus.failed, BamFile.present 7⟩]).1
    [⟨"s1", DStatus.ready, BamFile.present 5⟩] (by decide)
  exact ⟨h1.1, h1.2 true [] "VCF_FREEBAYES" "a.vcf" 1, h2.symm⟩

/- ## Lemmas: dataset supersession -/

theorem deleteFirstMatch_append_no_match (p : DatasetRec → Bool) :
    ∀ (l r : List DatasetRec), (∀ x ∈ l, p x = false) →
    deleteFirstMatch p (l ++ r) = l ++ deleteFirstMatch p r
  | [], r, _ => rfl
  | d :: ds, r, h => by
    have hd : p d = false := h d (List.mem_cons_self _ _)
    simp only [List.cons_append, deleteFirstMatch, hd, Bool.false_eq_true,
      if_false, List.cons.injEq, true_and]
    exact deleteFirstMatch_append_no_match p ds r
      (fun x hx => h x (List.mem_cons_of_mem _ hx))

/-- C7: two sequential successful orchestrated runs of the same tool
against the same alignment group: the second run supersedes the first
run's artifact by delete-then-recreate, so exactly one dataset of that
type remains registered afterwards, and it is the one created by the
second run (pointing at the second run's output file). -/
theorem C7_rerun_supersedes (sas : List SampleAlignment)
    (registry0 : List DatasetRec) (t loc : String)
    (hok : exceptOk (find_valid_sample_alignments sas) = true)
    (hfresh : ∀ d ∈ registry0, d.dtype ≠ t) :
    (find_variants_with_tool sas true
        (find_variants_with_tool sas true registry0 t loc 1).registry
        t loc 2).registry.filter (fun d => d.dtype == t)
      = [DatasetRec.mk t t loc 2] ∧
    (find_variants_with_tool sas true registry0 t loc 1).succeeded = true ∧
    (find_variants_with_tool sas true
        (find_variants_with_tool sas true registry0 t loc 1).registry
        t loc 2).succeeded = true := by
  cases hfv : find_valid_sample_alignments sas with
  | error e => rw [hfv] at hok; simp [exceptOk] at hok
  | ok v =>
    have hmatch0 : ∀ d ∈ registry0, dataset_matches t loc d = false := by
      intro d hd
      have := hfresh d hd
      simp [dataset_matches]
      intro h1
      exact absurd h1 this
    have hfil0 : registry0.filter (dataset_matches t loc) = [] :=
      List.filter_eq_nil_iff.mpr (by
        intro d hd
        simp [hmatch0 d hd])
    have hreg1 : register_vcf_dataset registry0 t loc 1
        = registry0 ++ [DatasetRec.mk t t loc 1] := by
      unfold register_vcf_dataset
      rw [hfil0]
      simp
    have hm1 : dataset_matches t loc (DatasetRec.mk t t loc 1) = true := by
      simp [dataset_matches]
    have hfil1 : (registry0 ++ [DatasetRec.mk t t loc 1]).filter
        (dataset_matches t loc) = [DatasetRec.mk t t loc 1] := by
      rw [List.filter_append, hfil0]
      simp [List.filter_cons, hm1]
    have hreg2 : register_vcf_dataset (registry0 ++ [DatasetRec.mk t t loc 1])
        t loc 2 = registry0 ++ [DatasetRec.mk t t loc 2] := by
      unfold register_vcf_dataset
      rw [hfil1]
      simp only [List.length_cons, List.length_nil]
      rw [if_pos (by omega)]
      rw [deleteFirstMatch_append_no_match (dataset_matches t loc) registry0 _
        hmatch0]
      simp [deleteFirstMatch, hm1]
    have hrun1 : (find_variants_with_tool sas true registry0 t loc 1).registry
        = registry0 ++ [DatasetRec.mk t t loc 1] := by
      simp [find_variants_with_tool, hfv, hreg1]
    have hrun1s :
        (find_variants_with_tool sas true registry0 t loc 1).succeeded = true := by
      simp [find_variants_with_tool, hfv]
    have hrun2s : (find_variants_with_tool sas true
        (registry0 ++ [DatasetRec.mk t t loc 1]) t loc 2).succeeded = true := by
      simp [find_variants_with_tool, hfv]
    have hrun2 : (find_variants_with_tool sas true
        (registry0 ++ [DatasetRec.mk t t loc 1]) t loc 2).registry
        = registry0 ++ [DatasetRec.mk t t loc 2] := by
      simp [find_variants_with_tool, hfv, hreg2]
    have hfilt0 : registry0.filter (fun d => d.dtype == t) = [] := by
      apply List.filter_eq_nil_iff.mpr
      intro d hd
      simp
      intro h1
      exact absurd h1 (hfresh d hd)
    refine ⟨?_, hrun1s, by rw [hrun1]; exact hrun2s⟩
    rw [hrun1, hrun2, List.filter_append, hfilt0]
    simp

/-- Witness for C7: a registry containing one unrelated dataset; after
two successful runs for type `VCF_LUMPY` at `a.vcf`, exactly the run-2
dataset of that type remains. -/
theorem C7_rerun_supersedes_witness :
    (find_variants_with_tool [⟨"s1", DStatus.ready, BamFile.present 5⟩] true
        (find_variants_with_tool [⟨"s1", DStatus.ready, BamFile.present 5⟩] true
          [⟨"OTHER", "OTHER", "x.vcf", 7⟩] "VCF_LUMPY" "a.vcf" 1).registry
        "VCF_LUMPY" "a.vcf" 2).registry.filter (fun d => d.dtype == "VCF_LUMPY")
      = [DatasetRec.mk "VCF_LUMPY" "VCF_LUMPY" "a.vcf" 2] := by
  exact (C7_rerun_supersedes [⟨"s1", DStatus.ready, BamFile.present 5⟩]
    [⟨"OTHER", "OTHER", "x.vcf", 7⟩] "VCF_LUMPY" "a.vcf"
    (by decide) (by decide)).1

/-- Counterexample to C8 as stated: with one sample, a failure of the
checked combine/convert step makes `run_delly` propagate the exception
while both duplicated files (`s1.bam`, `s1.bam.bai`) are still on disk —
the cleanup loop sits after that step with no `try/finally`. -/
theorem C8_counterexample_delly_cleanup_skipped :
    (run_delly ["s1"] [0, 0, 1] true).raised = true ∧
    (run_delly ["s1"] [0, 0, 1] true).leftoverDupFiles
      = ["s1.bam", "s1.bam.bai"] := by
  exact ⟨by decide, by decide⟩

/-- C8 as amended: the duplicated alignment files (and indexes) are all
removed whenever `run_delly` runs to completion — including when the
per-class delly invocations exit non-zero, which `subprocess.call`
tolerates — but when a checked intermediate step (copy, concat, sort, or
the empty-output conversion) raises, the adapter propagates before the
cleanup loop and every duplicated file is left behind. -/
theorem C8_delly_cleanup_amended (samples : List String)
    (exitCodes : List Nat) :
    ((run_delly samples exitCodes false).leftoverDupFiles = [] ∧
     (run_delly samples exitCodes false).returned = true ∧
     (run_delly samples exitCodes false).raised = false) ∧
    ((run_delly samples exitCodes true).leftoverDupFiles
        = dupBamFiles samples ∧
     (run_delly samples exitCodes true).raised = true) := by
  exact ⟨⟨rfl, rfl, rfl⟩, ⟨rfl, rfl⟩⟩

/-- C9: in every orchestrated run, whenever the tool adapter is invoked,
the status assignment to VARIANT_CALLING and the `save()` recording it
both occur at strictly earlier positions of the run's event trace; and
whenever parameter resolution succeeds, the status transition and its
save happen (they are unconditional from that point on, regardless of
the tool's outcome). -/
theorem C9_status_saved_before_tool (sas : List SampleAlignment)
    (toolSucceeds : Bool) (registry : List DatasetRec) (t loc : String)
    (runId : Nat) :
    (OEvent.invokeTool
        ∈ (find_variants_with_tool sas toolSucceeds registry t loc runId).trace →
      (find_variants_with_tool sas toolSucceeds registry t loc runId).trace.indexOf
          OEvent.setStatusVariantCalling
        < (find_variants_with_tool sas toolSucceeds registry t loc runId).trace.indexOf
          OEvent.invokeTool ∧
      (find_variants_with_tool sas toolSucceeds registry t loc runId).trace.indexOf
          OEvent.saveGroup
        < (find_variants_with_tool sas toolSucceeds registry t loc runId).trace.indexOf
          OEvent.invokeTool) ∧
    (exceptOk (find_valid_sample_alignments sas) = true →
      OEvent.setStatusVariantCalling
          ∈ (find_variants_with_tool sas toolSucceeds registry t loc runId).trace ∧
      OEvent.saveGroup
          ∈ (find_variants_with_tool sas toolSucceeds registry t loc runId).trace ∧
      OEvent.invokeTool
          ∈ (find_variants_with_tool sas toolSucceeds registry t loc runId).trace) := by
  cases hfv : find_valid_sample_alignments sas with
  | error e =>
    constructor
    · intro hmem
      simp only [find_variants_with_tool, hfv] at hmem
      exact absurd hmem (by decide)
    · intro hok
      simp [exceptOk] at hok
  | ok v =>
    cases toolSucceeds with
    | false =>
      have htr : (find_variants_with_tool sas false registry t loc runId).trace
          = [OEvent.validateSamples, OEvent.setStatusVariantCalling,
             OEvent.saveGroup, OEvent.invokeTool] := by
        simp [find_variants_with_tool, hfv]
      rw [htr]
      exact ⟨fun _ => ⟨by decide, by decide⟩,
             fun _ => ⟨by decide, by decide, by decide⟩⟩
    | true =>
      have htr : (find_variants_with_tool sas true registry t loc runId).trace
          = [OEvent.validateSamples, OEvent.setStatusVariantCalling,
             OEvent.saveGroup, OEvent.invokeTool, OEvent.registerArtifact] := by
        simp [find_variants_with_tool, hfv]
      rw [htr]
      exact ⟨fun _ => ⟨by decide, by decide⟩,
             fun _ => ⟨by decide, by decide, by decide⟩⟩

/-- Witness for C9: a run with one READY sample and a succeeding tool has
both the status assignment and the save strictly before the tool
invocation in its trace. -/
theorem C9_status_saved_before_tool_witness :
    (find_variants_with_tool [⟨"s1", DStatus.ready, BamFile.present 5⟩]
        true [] "VCF_FREEBAYES" "a.vcf" 1).trace.indexOf OEvent.saveGroup
      < (find_variants_with_tool [⟨"s1", DStatus.ready, BamFile.present 5⟩]
        true [] "VCF_FREEBAYES" "a.vcf" 1).trace.indexOf OEvent.invokeTool ∧
    OEvent.setStatusVariantCalling
      ∈ (find_variants_with_tool [⟨"s1", DStatus.ready, BamFile.present 5⟩]
        true [] "VCF_FREEBAYES" "a.vcf" 1).trace := by
  have h := C9_status_saved_before_tool
    [⟨"s1", DStatus.ready, BamFile.present 5⟩] true [] "VCF_FREEBAYES" "a.vcf" 1
  have h2 := h.2 (by decide)
  exact ⟨(h.1 h2.2.2).2, h2.1⟩

/-- C10: `run_lumpy` is only defined for a non-empty `sample_alignments`
list — its intermediate text-output filename reads the loop variable
`sample_uid`, which is unbound when the loop never ran, so with zero
samples it raises `NameError` before the external binary is invoked;
with at least one sample that failure is unreachable (the binary is
reached, and any error from that point on is the binary's own). -/
theorem C10_run_lumpy_needs_samples (vcfRoot : String)
    (samples : List String) (lumpyBinaryFails : Bool) :
    (samples = [] →
      run_lumpy vcfRoot samples lumpyBinaryFails
        = (.error .nameErrorSampleUid, false)) ∧
    (samples ≠ [] →
      (run_lumpy vcfRoot samples lumpyBinaryFails).2 = true ∧
      (run_lumpy vcfRoot samples lumpyBinaryFails).1
        ≠ .error .nameErrorSampleUid) := by
  constructor
  · intro h
    subst h
    rfl
  · intro h
    cases samples with
    | nil => exact absurd rfl h
    | cons a rest =>
      have hsome : (lumpyLoop 0 (a :: rest)).2.2
          = some (((lumpyLoop 1 rest).2.2).getD a) := rfl
      cases hb : lumpyBinaryFails
      · simp [run_lumpy, hsome]
      · simp [run_lumpy, hsome]

/-- Witness for C10: zero samples raise the unbound-name failure without
invoking the binary; two samples reach the invocation (the intermediate
filename uses the last sample's uid). -/
theorem C10_run_lumpy_needs_samples_witness :
    run_lumpy "ROOT" [] false = (.error .nameErrorSampleUid, false) ∧
    (run_lumpy "ROOT" ["sampleA", "sampleB"] false).2 = true := by
  exact ⟨(C10_run_lumpy_needs_samples "ROOT" [] false).1 rfl,
    ((C10_run_lumpy_needs_samples "ROOT" ["sampleA", "sampleB"] false).2
      (by decide)).1⟩
